import Mathlib

/-!
Verification of the job lifecycle of `arxiv-mcp-server-HTML`
(`src/arxiv_mcp_server/tools/download.py`), shallowly embedded in Lean.

The embedding models:
* `ConversionStatus` — the Job record (dataclass at lines 25-33);
* the global registry `conversion_statuses` as a finite map
  `String → Option ConversionStatus`;
* the filesystem as a map from paths to file contents;
* `convert_pdf_to_markdown` (lines 64-139) — the two-stage conversion
  with HTML-first / PDF-fallback, parameterised by an environment that
  decides the outcomes of the external collaborators (HTTP fetch,
  markdownify, pymupdf4llm);
* `handle_download` (lines 142-280) — the orchestrator, parameterised by
  an environment deciding the outcome of the arXiv search/download;
* a system-level step relation over (registry, filesystem, pending
  background conversions) to state reachability invariants.
-/

namespace ArxivMcp

/-- Modelled from the spec: `Settings.STORAGE_PATH` (the module `..config`
is not part of the analysed sources). The spec only requires "one
configured storage root" under which artifact paths are deterministic,
so a fixed abstract root suffices. -/
def STORAGE_PATH : String := "storage"

/-- Embeds `get_paper_path(paper_id, suffix)` (download.py lines 57-61):
`Path(settings.STORAGE_PATH) / f"{paper_id}{suffix}"`.  The `mkdir`
side effect does not influence any observable modelled here. -/
def get_paper_path (paper_id : String) (suffix : String) : String :=
  STORAGE_PATH ++ "/" ++ paper_id ++ suffix

/-- The Job record: dataclass `ConversionStatus` (download.py lines 25-33).
Timestamps are abstracted as naturals. -/
structure ConversionStatus where
  paper_id : String
  status : String
  started_at : Nat
  completed_at : Option Nat := none
  error : Option String := none
deriving DecidableEq, Repr

/-- The global `conversion_statuses` dictionary (download.py line 22). -/
def Registry : Type := String → Option ConversionStatus

/-- Functional update of the registry at one key
(`conversion_statuses[paper_id] = ...` / field mutation on the stored
object). -/
def Registry.update (reg : Registry) (paper_id : String)
    (st : ConversionStatus) : Registry :=
  fun k => if k = paper_id then some st else reg k

/-- The filesystem, as a map from paths to file contents. -/
def FS : Type := String → Option String

/-- Embeds `open(path, "w").write(contents)`. -/
def FS.write (fs : FS) (mdPath : String) (contents : String) : FS :=
  fun k => if k = mdPath then some contents else fs k

/-- Environment for `convert_pdf_to_markdown`: outcomes of the external
collaborators, plus the clock.
* `htmlFetch` — `requests.get(html_url, timeout=10)` followed by
  `raise_for_status()`: either the HTML body or a failure description.
* `htmlToMd` — `markdownify` applied to the fetched HTML: either the
  markdown text or a failure description.
* `pdfToMd` — `pymupdf4llm.to_markdown` applied to the cached PDF file
  contents: either the markdown text or a failure description.
* `now` — `datetime.now()` at completion time. -/
structure ConvEnv where
  htmlFetch : Except String String
  htmlToMd : String → Except String String
  pdfToMd : String → Except String String
  now : Nat

/-- Outcome of the primary (HTML → markdown) path, lines 67-89:
fetch the rendered HTML, then convert it with markdownify; any failure
in either stage aborts the primary path. -/
def primaryResult (env : ConvEnv) : Except String String :=
  match env.htmlFetch with
  | Except.error e => Except.error e
  | Except.ok html => env.htmlToMd html

/-- Outcome of the secondary (PDF → markdown) path, lines 106-117:
require the previously downloaded PDF at its deterministic path
(`FileNotFoundError(f"PDF file not found at {pdf_path}")` if absent),
then run the layout-aware extractor on it. -/
def secondaryResult (env : ConvEnv) (paper_id : String) (fs : FS) :
    Except String String :=
  match fs (get_paper_path paper_id ".pdf") with
  | none => Except.error ("PDF file not found at " ++ get_paper_path paper_id ".pdf")
  | some pdfContents => env.pdfToMd pdfContents

/-- Embeds `convert_pdf_to_markdown(paper_id)` (download.py lines 64-139).
Returns the updated registry and filesystem.

* Primary success (lines 91-98): write the artifact, then — only if a
  Job is registered — set `status = "success"` and `completed_at`
  (`error` is *not* touched on this path).
* Primary failure falls back (lines 102-117); secondary success
  (lines 119-129) writes the artifact and, if a Job is registered, sets
  `status = "success"`, `completed_at` and `error = None`.
* Secondary failure (lines 133-139): if a Job is registered, set
  `status = "error"`, `completed_at`, `error = str(pdf_e)`. -/
def convert_pdf_to_markdown (env : ConvEnv) (paper_id : String)
    (reg : Registry) (fs : FS) : Registry × FS :=
  match primaryResult env with
  | Except.ok markdown =>
      let fs1 := fs.write (get_paper_path paper_id ".md") markdown
      let reg1 := match reg paper_id with
        | some st =>
            reg.update paper_id
              { st with status := "success", completed_at := some env.now }
        | none => reg
      (reg1, fs1)
  | Except.error _ =>
      match secondaryResult env paper_id fs with
      | Except.ok markdown =>
          let fs1 := fs.write (get_paper_path paper_id ".md") markdown
          let reg1 := match reg paper_id with
            | some st =>
                reg.update paper_id
                  { st with status := "success", completed_at := some env.now,
                            error := none }
            | none => reg
          (reg1, fs1)
      | Except.error pdfErr =>
          let reg1 := match reg paper_id with
            | some st =>
                reg.update paper_id
                  { st with status := "error", completed_at := some env.now,
                            error := some pdfErr }
            | none => reg
          (reg1, fs)

/-- One structured result payload: the JSON object serialised into a
single `TextContent` item.  Fields absent from a given `json.dumps`
call are `none`. -/
structure ResultPayload where
  status : String
  message : String
  resource_uri : Option String := none
  started_at : Option Nat := none
  completed_at : Option Nat := none
  error : Option String := none
deriving DecidableEq, Repr

/-- The `arguments` dictionary restricted to the two schema keys.
`paper_id = none` models a dictionary missing the key (so that
`arguments["paper_id"]` raises `KeyError`); `check_status = none`
models absence, defaulted to `False` by `arguments.get`. -/
structure Args where
  paper_id : Option String
  check_status : Option Bool
deriving DecidableEq, Repr

/-- Outcome of the arXiv search-and-download step (lines 237-238):
* `notFound` — `next(client.results(...))` raises `StopIteration`;
* `fetchError msg` — any other exception during search or
  `paper.download_pdf` with `str(e) = msg`;
* `ok pdfContents` — the PDF was downloaded and written to disk. -/
inductive FetchOutcome where
  | notFound
  | fetchError (msg : String)
  | ok (pdfContents : String)
deriving DecidableEq, Repr

/-- Environment for `handle_download`: the fetch outcome and the clock
(`datetime.now()` at Job creation). -/
structure DlEnv where
  fetch : FetchOutcome
  now : Nat

/-- The observable outcome of one `handle_download` call: the returned
result list, the updated registry and filesystem, and the identifier
whose background conversion task was spawned (if any). -/
structure DlOutcome where
  results : List ResultPayload
  reg : Registry
  fs : FS
  spawned : Option String

/-- Embeds `handle_download(arguments)` (download.py lines 142-280).

Branches, in source order:
1. missing `"paper_id"` key → `KeyError('paper_id')` caught by the
   outer `except Exception` → `{"status": "error", "message": "Error: 'paper_id'"}`
   (Python's `str` of that `KeyError` is `'paper_id'` with quotes);
2. `check_status` (lines 149-194): no Job → artifact check
   ("Paper is ready" / "unknown"); Job present → report its state;
3. artifact already on disk (lines 196-209) → "Paper already available";
4. Job already in registry (lines 211-225) → report its state;
5. otherwise (lines 227-260): register a `downloading` Job, run the
   search/download; `StopIteration` → "not found" result (the freshly
   created Job stays behind, stuck in `downloading`); other exception →
   generic error result (likewise); success → write the PDF, set the
   Job to `converting`, spawn the conversion task, report
   "conversion started". -/
def handle_download (env : DlEnv) (args : Args) (reg : Registry) (fs : FS) :
    DlOutcome :=
  match args.paper_id with
  | none =>
      { results := [{ status := "error", message := "Error: \x27paper_id\x27" }],
        reg := reg, fs := fs, spawned := none }
  | some paper_id =>
      let check_status := args.check_status.getD false
      if check_status then
        match reg paper_id with
        | none =>
            if (fs (get_paper_path paper_id ".md")).isSome then
              let r : ResultPayload :=
                { status := "success", message := "Paper is ready",
                  resource_uri := some ("file://" ++ get_paper_path paper_id ".md") }
              { results := [r], reg := reg, fs := fs, spawned := none }
            else
              let r : ResultPayload :=
                { status := "unknown",
                  message := "No download or conversion in progress" }
              { results := [r], reg := reg, fs := fs, spawned := none }
        | some st =>
            let r : ResultPayload :=
              { status := st.status,
                message := "Paper conversion " ++ st.status,
                started_at := some st.started_at,
                completed_at := st.completed_at,
                error := st.error }
            { results := [r], reg := reg, fs := fs, spawned := none }
      else
        if (fs (get_paper_path paper_id ".md")).isSome then
          let r : ResultPayload :=
            { status := "success", message := "Paper already available",
              resource_uri := some ("file://" ++ get_paper_path paper_id ".md") }
          { results := [r], reg := reg, fs := fs, spawned := none }
        else
          match reg paper_id with
          | some st =>
              let r : ResultPayload :=
                { status := st.status,
                  message := "Paper conversion " ++ st.status,
                  started_at := some st.started_at }
              { results := [r], reg := reg, fs := fs, spawned := none }
          | none =>
              let newJob : ConversionStatus :=
                { paper_id := paper_id, status := "downloading",
                  started_at := env.now }
              let reg1 := reg.update paper_id newJob
              match env.fetch with
              | FetchOutcome.notFound =>
                  let r : ResultPayload :=
                    { status := "error",
                      message := "Paper " ++ paper_id ++ " not found on arXiv" }
                  { results := [r], reg := reg1, fs := fs, spawned := none }
              | FetchOutcome.fetchError msg =>
                  let r : ResultPayload :=
                    { status := "error", message := "Error: " ++ msg }
                  { results := [r], reg := reg1, fs := fs, spawned := none }
              | FetchOutcome.ok pdfContents =>
                  let fs1 := fs.write (get_paper_path paper_id ".pdf") pdfContents
                  let reg2 := reg1.update paper_id { newJob with status := "converting" }
                  let r : ResultPayload :=
                    { status := "converting",
                      message := "Paper downloaded, conversion started",
                      started_at := some env.now }
                  { results := [r], reg := reg2, fs := fs1, spawned := some paper_id }

/-- System state: the registry, the filesystem, and the identifiers
whose conversion task has been spawned (`asyncio.create_task` at
line 245) but has not yet run. -/
structure Sys where
  reg : Registry
  fs : FS
  pending : List String

/-- Apply one `handle_download` call to the system state. -/
def applyDl (env : DlEnv) (args : Args) (s : Sys) : Sys :=
  let o := handle_download env args s.reg s.fs
  { reg := o.reg, fs := o.fs,
    pending := match o.spawned with
      | some paper_id => s.pending ++ [paper_id]
      | none => s.pending }

/-- Run one pending background conversion to completion. -/
def applyConv (env : ConvEnv) (paper_id : String) (s : Sys) : Sys :=
  let o := convert_pdf_to_markdown env paper_id s.reg s.fs
  { reg := o.1, fs := o.2, pending := s.pending.erase paper_id }

/-- One system step: either a caller invokes `handle_download`, or a
pending background conversion runs. -/
inductive Step : Sys → Sys → Prop
  | call (env : DlEnv) (args : Args) (s : Sys) : Step s (applyDl env args s)
  | runConv (env : ConvEnv) (paper_id : String) (s : Sys)
      (h : paper_id ∈ s.pending) : Step s (applyConv env paper_id s)

/-- Reachable system states: the registry starts empty (module load,
line 22), no conversion is pending, the filesystem is arbitrary. -/
inductive Reachable : Sys → Prop
  | init (fs : FS) : Reachable { reg := fun _ => none, fs := fs, pending := [] }
  | step {s s' : Sys} : Reachable s → Step s s' → Reachable s'

/-- The system invariant: every pending background conversion belongs
to a registered Job in state `converting`, and no identifier has two
pending conversions. -/
def Inv (s : Sys) : Prop :=
  s.pending.Nodup ∧
    ∀ pid ∈ s.pending, ∃ st, s.reg pid = some st ∧ st.status = "converting"

/-! ### Concrete sample data (used by the witness theorems) -/

def wEmptyFS : FS := fun _ => none

def wEmptyReg : Registry := fun _ => none

def wJob : ConversionStatus :=
  { paper_id := "p", status := "converting", started_at := 2 }

def wReg : Registry := fun k => if k = "p" then some wJob else none

/-- An environment in which both conversion paths fail. -/
def wFailEnv : ConvEnv :=
  { htmlFetch := Except.error "net down",
    htmlToMd := fun _ => Except.error "bad html",
    pdfToMd := fun _ => Except.error "bad pdf",
    now := 5 }

/-- An environment in which the primary (HTML) path succeeds. -/
def wOkEnv : ConvEnv :=
  { htmlFetch := Except.ok "html",
    htmlToMd := fun _ => Except.ok "MD",
    pdfToMd := fun _ => Except.ok "MD2",
    now := 7 }

/-- A Job carrying a leftover error message, to probe whether a later
success clears the `error` field. -/
def wStaleJob : ConversionStatus :=
  { paper_id := "p", status := "converting", started_at := 3,
    error := some "boom" }

def wStaleReg : Registry := fun k => if k = "p" then some wStaleJob else none

/-- A filesystem already holding the converted artifact. -/
def wArtFS : FS :=
  fun k => if k = get_paper_path "2101.00001" ".md" then some "MDTEXT" else none

def wDlEnv : DlEnv := { fetch := FetchOutcome.ok "PDFBYTES", now := 0 }

def wDlArgs : Args := { paper_id := some "p", check_status := some false }

def wSys0 : Sys := { reg := fun _ => none, fs := wEmptyFS, pending := [] }

/-- After one full request for `"p"`: Job `converting`, conversion pending. -/
def wSys1 : Sys := applyDl wDlEnv wDlArgs wSys0

/-- After the background conversion ran (primary path succeeds): Job
terminal `success`. -/
def wSys2 : Sys := applyConv wOkEnv "p" wSys1

/-! ### Helper lemmas -/

@[simp]
lemma Registry.update_self (reg : Registry) (paper_id : String)
    (st : ConversionStatus) : reg.update paper_id st paper_id = some st := by
  simp [Registry.update]

lemma Registry.update_other (reg : Registry) (paper_id : String)
    (st : ConversionStatus) (k : String) (hk : k ≠ paper_id) :
    reg.update paper_id st k = reg k := by
  simp [Registry.update, hk]

/-- `handle_download` never modifies an entry that already exists in the
registry: Jobs are written only at an identifier whose lookup returned
`None` (lines 212 and 232-242). -/
lemma handle_download_reg_preserve (env : DlEnv) (args : Args) (reg : Registry)
    (fs : FS) (k : String) (st : ConversionStatus) (h : reg k = some st) :
    (handle_download env args reg fs).reg k = some st := by
  obtain ⟨apid, acs⟩ := args
  cases apid with
  | none => exact h
  | some pid =>
    unfold handle_download
    dsimp only
    split
    · split
      · split <;> exact h
      · exact h
    · split
      · exact h
      · split
        · exact h
        · have hk : k ≠ pid := by
            rename_i hnone
            intro hkp
            rw [hkp, hnone] at h
            exact Option.noConfusion h
          split <;> simp [Registry.update, hk, h]

/-- When `handle_download` spawns a conversion for `pid`, there was no
Job for `pid` before the call, and afterwards the registry holds a fresh
`converting` Job for `pid`. -/
lemma handle_download_spawn_inv (env : DlEnv) (args : Args) (reg : Registry)
    (fs : FS) (pid : String)
    (h : (handle_download env args reg fs).spawned = some pid) :
    reg pid = none ∧
      (handle_download env args reg fs).reg pid =
        some { paper_id := pid, status := "converting", started_at := env.now } := by
  obtain ⟨apid, acs⟩ := args
  cases apid with
  | none => exact Option.noConfusion h
  | some pid0 =>
    by_cases hcs : acs.getD false = true
    · exfalso
      cases hreg : reg pid0 with
      | none =>
          by_cases hart : (fs (get_paper_path pid0 ".md")).isSome = true
          · simp [handle_download, hcs, hreg, hart] at h
          · simp [handle_download, hcs, hreg, hart] at h
      | some st0 => simp [handle_download, hcs, hreg] at h
    · by_cases hart : (fs (get_paper_path pid0 ".md")).isSome = true
      · exfalso; simp [handle_download, hcs, hart] at h
      · cases hreg : reg pid0 with
        | some st0 => exfalso; simp [handle_download, hcs, hart, hreg] at h
        | none =>
            cases hf : env.fetch with
            | notFound => exfalso; simp [handle_download, hcs, hart, hreg, hf] at h
            | fetchError msg =>
                exfalso; simp [handle_download, hcs, hart, hreg, hf] at h
            | ok pdfContents =>
                have hp : pid0 = pid := by
                  simpa [handle_download, hcs, hart, hreg, hf] using h
                subst hp
                refine ⟨hreg, ?_⟩
                simp [handle_download, hcs, hart, hreg, hf, Registry.update]

/-- `convert_pdf_to_markdown` touches the registry at most at its own
identifier. -/
lemma convert_reg_frame (env : ConvEnv) (paper_id : String) (reg : Registry)
    (fs : FS) (k : String) (hk : k ≠ paper_id) :
    (convert_pdf_to_markdown env paper_id reg fs).1 k = reg k := by
  unfold convert_pdf_to_markdown
  split
  · dsimp only
    split
    · exact Registry.update_other _ _ _ _ hk
    · rfl
  · split
    · dsimp only
      split
      · exact Registry.update_other _ _ _ _ hk
      · rfl
    · dsimp only
      split
      · exact Registry.update_other _ _ _ _ hk
      · rfl

/-- Evaluation of a `check_status = true` call when a Job is registered
(download.py lines 177-194). -/
lemma handle_download_check_job (env : DlEnv) (reg : Registry) (fs : FS)
    (pid : String) (st : ConversionStatus) (h : reg pid = some st) :
    handle_download env { paper_id := some pid, check_status := some true } reg fs =
      { results := [⟨st.status, "Paper conversion " ++ st.status, none,
          some st.started_at, st.completed_at, st.error⟩],
        reg := reg, fs := fs, spawned := none } := by
  simp [handle_download, h]

/-- Evaluation of a full request when the artifact is absent but a Job
is registered (download.py lines 211-225). -/
lemma handle_download_inflight (env : DlEnv) (reg : Registry) (fs : FS)
    (pid : String) (st : ConversionStatus) (h : reg pid = some st)
    (hart : fs (get_paper_path pid ".md") = none) :
    handle_download env { paper_id := some pid, check_status := some false } reg fs =
      { results := [⟨st.status, "Paper conversion " ++ st.status, none,
          some st.started_at, none, none⟩],
        reg := reg, fs := fs, spawned := none } := by
  simp [handle_download, h, hart]

lemma inv_applyDl (env : DlEnv) (args : Args) (s : Sys) (hI : Inv s) :
    Inv (applyDl env args s) := by
  obtain ⟨hnd, hjobs⟩ := hI
  cases hsp : (handle_download env args s.reg s.fs).spawned with
  | none =>
      refine ⟨by simpa [applyDl, hsp] using hnd, ?_⟩
      intro pid hpid
      rw [applyDl] at hpid
      simp only [hsp] at hpid
      obtain ⟨st, hst, hconv⟩ := hjobs pid hpid
      exact ⟨st, handle_download_reg_preserve env args s.reg s.fs pid st hst, hconv⟩
  | some pid0 =>
      obtain ⟨hnone, hreg⟩ := handle_download_spawn_inv env args s.reg s.fs pid0 hsp
      have hpnot : pid0 ∉ s.pending := by
        intro hmem
        obtain ⟨st, hst, _⟩ := hjobs pid0 hmem
        rw [hnone] at hst
        exact Option.noConfusion hst
      constructor
      · rw [applyDl]
        simp only [hsp]
        refine List.nodup_append.mpr ⟨hnd, List.nodup_singleton pid0, ?_⟩
        intro a ha hb
        rw [List.mem_singleton] at hb
        subst hb
        exact hpnot ha
      · intro pid hpid
        rw [applyDl] at hpid ⊢
        simp only [hsp] at hpid
        rw [List.mem_append, List.mem_singleton] at hpid
        cases hpid with
        | inl hmem =>
            obtain ⟨st, hst, hconv⟩ := hjobs pid hmem
            exact ⟨st, handle_download_reg_preserve env args s.reg s.fs pid st hst,
              hconv⟩
        | inr heq =>
            subst heq
            exact ⟨_, hreg, rfl⟩

lemma inv_applyConv (env : ConvEnv) (pid0 : String) (s : Sys) (hI : Inv s) :
    Inv (applyConv env pid0 s) := by
  obtain ⟨hnd, hjobs⟩ := hI
  constructor
  · simpa [applyConv] using hnd.erase pid0
  · intro pid hpid
    rw [applyConv] at hpid ⊢
    dsimp only at hpid ⊢
    have hmem : pid ∈ s.pending := List.mem_of_mem_erase hpid
    have hne : pid ≠ pid0 := ((List.Nodup.mem_erase_iff hnd).1 hpid).1
    obtain ⟨st, hst, hconv⟩ := hjobs pid hmem
    refine ⟨st, ?_, hconv⟩
    rw [convert_reg_frame env pid0 s.reg s.fs pid hne]
    exact hst

lemma inv_reachable {s : Sys} (h : Reachable s) : Inv s := by
  induction h with
  | init fs =>
      refine ⟨List.nodup_nil, ?_⟩
      intro pid hpid
      cases hpid
  | step _ hstep ih =>
      revert ih
      cases hstep with
      | call env args => exact fun ih => inv_applyDl env args _ ih
      | runConv env pid0 => exact fun ih => inv_applyConv env pid0 _ ih

/-- Every branch of `handle_download` returns exactly one structured
result item. -/
lemma handle_download_results_singleton (env : DlEnv) (args : Args)
    (reg : Registry) (fs : FS) :
    ∃ r, (handle_download env args reg fs).results = [r] := by
  obtain ⟨apid, acs⟩ := args
  cases apid with
  | none => exact ⟨_, rfl⟩
  | some pid =>
    unfold handle_download
    dsimp only
    split
    · split
      · split
        · exact ⟨_, rfl⟩
        · exact ⟨_, rfl⟩
      · exact ⟨_, rfl⟩
    · split
      · exact ⟨_, rfl⟩
      · split
        · exact ⟨_, rfl⟩
        · split
          · exact ⟨_, rfl⟩
          · exact ⟨_, rfl⟩
          · exact ⟨_, rfl⟩

/-! ### Claim theorems -/

/-- C1: if the primary (HTML-to-markdown) path fails and the secondary
(PDF-to-markdown) path then also fails, `convert_pdf_to_markdown`
transitions a registered Job to the terminal `error` state, sets
`completed_at`, and sets `error` to the (non-empty) description of the
secondary failure — the primary failure `e1` does not appear in the
Job. -/
theorem convert_both_paths_fail_job_error
    (env : ConvEnv) (pid : String) (reg : Registry) (fs : FS)
    (st : ConversionStatus) (e1 e2 : String)
    (hreg : reg pid = some st)
    (hprim : primaryResult env = Except.error e1)
    (hsec : secondaryResult env pid fs = Except.error e2)
    (hne : e2 ≠ "") :
    (convert_pdf_to_markdown env pid reg fs).1 pid =
      some ⟨st.paper_id, "error", st.started_at, some env.now, some e2⟩ ∧
    e2 ≠ "" := by
  refine ⟨?_, hne⟩
  simp [convert_pdf_to_markdown, hprim, hsec, hreg, Registry.update]

theorem convert_both_paths_fail_job_error_witness :
    (convert_pdf_to_markdown wFailEnv "p" wReg wEmptyFS).1 "p" =
      some ⟨"p", "error", 2, some 5,
        some ("PDF file not found at " ++ get_paper_path "p" ".pdf")⟩ ∧
    ("PDF file not found at " ++ get_paper_path "p" ".pdf") ≠ "" :=
  convert_both_paths_fail_job_error wFailEnv "p" wReg wEmptyFS wJob
    "net down" ("PDF file not found at " ++ get_paper_path "p" ".pdf")
    (by decide) rfl rfl (by decide)

/-- C2 counterexample: at this concrete input the primary path succeeds
and the Job transitions to `success`, yet its `error` field still holds
the pre-existing message `"boom"` — the primary-success branch
(lines 95-98) does not clear `error`, refuting "clears error …
regardless of which path". -/
theorem convert_primary_success_keeps_error_cex :
    primaryResult wOkEnv = Except.ok "MD" ∧
    (convert_pdf_to_markdown wOkEnv "p" wStaleReg wEmptyFS).1 "p" =
      some ⟨"p", "success", 3, some 7, some "boom"⟩ := by
  exact ⟨rfl, by decide⟩

/-- C2 (amended): on success of either path `convert_pdf_to_markdown`
transitions a registered Job to terminal `success` and sets
`completed_at`; the `error` field is cleared on secondary-path success
and left unchanged on primary-path success, so it ends up empty
whenever it was empty at entry (as it is for every freshly created
Job). -/
theorem convert_success_job_success
    (env : ConvEnv) (pid : String) (reg : Registry) (fs : FS)
    (st : ConversionStatus)
    (hreg : reg pid = some st) (herr : st.error = none)
    (hsucc : (∃ m, primaryResult env = Except.ok m) ∨
      ((∃ e, primaryResult env = Except.error e) ∧
        ∃ m, secondaryResult env pid fs = Except.ok m)) :
    (convert_pdf_to_markdown env pid reg fs).1 pid =
      some ⟨st.paper_id, "success", st.started_at, some env.now, none⟩ := by
  rcases hsucc with ⟨m, hm⟩ | ⟨⟨e, he⟩, m, hm⟩
  · rw [← herr]
    simp [convert_pdf_to_markdown, hm, hreg, Registry.update]
  · simp [convert_pdf_to_markdown, he, hm, hreg, Registry.update]

theorem convert_success_job_success_witness :
    (convert_pdf_to_markdown wOkEnv "p" wReg wEmptyFS).1 "p" =
      some ⟨"p", "success", 2, some 7, none⟩ :=
  convert_success_job_success wOkEnv "p" wReg wEmptyFS wJob
    (by decide) rfl (Or.inl ⟨"MD", rfl⟩)

/-- C7: when no Job is registered for the identifier, every status
update inside `convert_pdf_to_markdown` is a safe no-op: the function
is total (it cannot raise) and the registry it returns is exactly the
registry it was given. -/
theorem convert_no_job_registry_unchanged
    (env : ConvEnv) (pid : String) (reg : Registry) (fs : FS)
    (hreg : reg pid = none) :
    (convert_pdf_to_markdown env pid reg fs).1 = reg := by
  unfold convert_pdf_to_markdown
  split
  · simp [hreg]
  · split
    · simp [hreg]
    · simp [hreg]

theorem convert_no_job_registry_unchanged_witness :
    (convert_pdf_to_markdown wOkEnv "p" wEmptyReg wEmptyFS).1 = wEmptyReg :=
  convert_no_job_registry_unchanged wOkEnv "p" wEmptyReg wEmptyFS rfl

/-- C10: on a successful conversion by either path, the normalized
text is written to the deterministic `.md` path.  The registry `reg` is
universally quantified and absent from the conclusion: artifact
persistence does not depend on registry state (the witness instantiates
it with an empty registry). -/
theorem convert_success_writes_artifact
    (env : ConvEnv) (pid : String) (reg : Registry) (fs : FS) (m : String)
    (hsucc : primaryResult env = Except.ok m ∨
      ((∃ e, primaryResult env = Except.error e) ∧
        secondaryResult env pid fs = Except.ok m)) :
    (convert_pdf_to_markdown env pid reg fs).2 =
      fs.write (get_paper_path pid ".md") m ∧
    (convert_pdf_to_markdown env pid reg fs).2 (get_paper_path pid ".md") =
      some m := by
  have hfs : (convert_pdf_to_markdown env pid reg fs).2 =
      fs.write (get_paper_path pid ".md") m := by
    rcases hsucc with hm | ⟨⟨e, he⟩, hm⟩
    · simp [convert_pdf_to_markdown, hm]
    · simp [convert_pdf_to_markdown, he, hm]
  exact ⟨hfs, by rw [hfs]; simp [FS.write]⟩

theorem convert_success_writes_artifact_witness :
    (convert_pdf_to_markdown wOkEnv "p" wEmptyReg wEmptyFS).2 =
      FS.write wEmptyFS (get_paper_path "p" ".md") "MD" ∧
    (convert_pdf_to_markdown wOkEnv "p" wEmptyReg wEmptyFS).2
        (get_paper_path "p" ".md") = some "MD" :=
  convert_success_writes_artifact wOkEnv "p" wEmptyReg wEmptyFS "MD" (Or.inl rfl)

/-- C3: for every arguments dictionary and environment,
`handle_download` returns exactly one structured result (it is a total
function of its inputs, so it never raises); a missing `"paper_id"`
key surfaces as an error result carrying the `KeyError` text, and any
other exception reaching the catch-all (here: a search/download
failure) surfaces as `"Error: " ++ str(e)`. -/
theorem handle_download_never_raises
    (env : DlEnv) (args : Args) (reg : Registry) (fs : FS) :
    (∃ r, (handle_download env args reg fs).results = [r]) ∧
    (args.paper_id = none →
      (handle_download env args reg fs).results =
        [⟨"error", "Error: \x27paper_id\x27", none, none, none, none⟩]) ∧
    (∀ pid msg, args.paper_id = some pid → args.check_status.getD false = false →
      fs (get_paper_path pid ".md") = none → reg pid = none →
      env.fetch = FetchOutcome.fetchError msg →
      (handle_download env args reg fs).results =
        [⟨"error", "Error: " ++ msg, none, none, none, none⟩]) := by
  obtain ⟨apid, acs⟩ := args
  refine ⟨handle_download_results_singleton env ⟨apid, acs⟩ reg fs, ?_, ?_⟩
  · intro h
    dsimp only at h
    subst h
    rfl
  · intro pid msg hpid hcs hart hreg hf
    dsimp only at hpid hcs
    subst hpid
    simp [handle_download, hcs, hart, hreg, hf]

theorem handle_download_never_raises_witness :
    (handle_download wDlEnv { paper_id := none, check_status := none }
        wEmptyReg wEmptyFS).results =
      [⟨"error", "Error: \x27paper_id\x27", none, none, none, none⟩] :=
  (handle_download_never_raises wDlEnv
    { paper_id := none, check_status := none } wEmptyReg wEmptyFS).2.1 rfl

/-- C4: a full request (`check_status = false`) for an identifier with
no artifact on disk and no registered Job, whose remote search yields
no result (`StopIteration`), returns exactly
`{status: "error", message: "Paper <paper_id> not found on arXiv"}`
(all other payload fields absent). -/
theorem handle_download_not_found
    (env : DlEnv) (args : Args) (reg : Registry) (fs : FS) (pid : String)
    (hpid : args.paper_id = some pid)
    (hcs : args.check_status.getD false = false)
    (hart : fs (get_paper_path pid ".md") = none)
    (hreg : reg pid = none)
    (hf : env.fetch = FetchOutcome.notFound) :
    (handle_download env args reg fs).results =
      [⟨"error", "Paper " ++ pid ++ " not found on arXiv",
        none, none, none, none⟩] := by
  obtain ⟨apid, acs⟩ := args
  dsimp only at hpid hcs
  subst hpid
  simp [handle_download, hcs, hart, hreg, hf]

theorem handle_download_not_found_witness :
    (handle_download { fetch := FetchOutcome.notFound, now := 0 }
        { paper_id := some "9999.99999", check_status := some false }
        wEmptyReg wEmptyFS).results =
      [⟨"error", "Paper 9999.99999 not found on arXiv",
        none, none, none, none⟩] :=
  handle_download_not_found { fetch := FetchOutcome.notFound, now := 0 }
    { paper_id := some "9999.99999", check_status := some false }
    wEmptyReg wEmptyFS "9999.99999" rfl rfl rfl rfl rfl

/-- C5: when the converted `.md` artifact already exists, a full
request short-circuits: it returns success with message
"Paper already available" and the artifact's resource locator, the
registry is returned untouched, the filesystem is untouched, and no
download or conversion is initiated (nothing is spawned). -/
theorem handle_download_already_available
    (env : DlEnv) (args : Args) (reg : Registry) (fs : FS)
    (pid : String) (contents : String)
    (hpid : args.paper_id = some pid)
    (hcs : args.check_status.getD false = false)
    (hart : fs (get_paper_path pid ".md") = some contents) :
    handle_download env args reg fs =
      { results := [⟨"success", "Paper already available",
          some ("file://" ++ get_paper_path pid ".md"), none, none, none⟩],
        reg := reg, fs := fs, spawned := none } := by
  obtain ⟨apid, acs⟩ := args
  dsimp only at hpid hcs
  subst hpid
  simp [handle_download, hcs, hart]

theorem handle_download_already_available_witness :
    handle_download wDlEnv
        { paper_id := some "2101.00001", check_status := some false }
        wEmptyReg wArtFS =
      { results := [⟨"success", "Paper already available",
          some ("file://" ++ get_paper_path "2101.00001" ".md"),
          none, none, none⟩],
        reg := wEmptyReg, fs := wArtFS, spawned := none } :=
  handle_download_already_available wDlEnv
    { paper_id := some "2101.00001", check_status := some false }
    wEmptyReg wArtFS "2101.00001" "MDTEXT" rfl rfl (by decide)

/-- C6: a status-only request (`check_status = true`) for an
identifier with no registered Job reports success with the artifact's
resource locator when the `.md` file exists, and `unknown` when it
does not; in both cases the registry and filesystem are untouched and
nothing is spawned. -/
theorem handle_download_check_no_job
    (env : DlEnv) (args : Args) (reg : Registry) (fs : FS) (pid : String)
    (hpid : args.paper_id = some pid)
    (hcs : args.check_status = some true)
    (hreg : reg pid = none) :
    (∀ contents, fs (get_paper_path pid ".md") = some contents →
      handle_download env args reg fs =
        { results := [⟨"success", "Paper is ready",
            some ("file://" ++ get_paper_path pid ".md"), none, none, none⟩],
          reg := reg, fs := fs, spawned := none }) ∧
    (fs (get_paper_path pid ".md") = none →
      handle_download env args reg fs =
        { results := [⟨"unknown", "No download or conversion in progress",
            none, none, none, none⟩],
          reg := reg, fs := fs, spawned := none }) := by
  obtain ⟨apid, acs⟩ := args
  dsimp only at hpid hcs
  subst hpid
  subst hcs
  constructor
  · intro contents hart
    simp [handle_download, hreg, hart]
  · intro hart
    simp [handle_download, hreg, hart]

theorem handle_download_check_no_job_witness :
    (handle_download wDlEnv
        { paper_id := some "2101.00001", check_status := some true }
        wEmptyReg wArtFS =
      { results := [⟨"success", "Paper is ready",
          some ("file://" ++ get_paper_path "2101.00001" ".md"),
          none, none, none⟩],
        reg := wEmptyReg, fs := wArtFS, spawned := none }) ∧
    (handle_download wDlEnv
        { paper_id := some "q", check_status := some true }
        wEmptyReg wEmptyFS =
      { results := [⟨"unknown", "No download or conversion in progress",
          none, none, none, none⟩],
        reg := wEmptyReg, fs := wEmptyFS, spawned := none }) := by
  constructor
  · exact (handle_download_check_no_job wDlEnv
      { paper_id := some "2101.00001", check_status := some true }
      wEmptyReg wArtFS "2101.00001" rfl rfl rfl).1 "MDTEXT" (by decide)
  · exact (handle_download_check_no_job wDlEnv
      { paper_id := some "q", check_status := some true }
      wEmptyReg wEmptyFS "q" rfl rfl rfl).2 rfl

/-- C8: in any reachable system state, once a Job is terminal
(`success` or `error`), no system step — neither a `handle_download`
call in any mode nor a background conversion — changes any field of
that Job; consequently a `check_status = true` call after the step
returns exactly the same payload as one before it. -/
theorem terminal_job_frozen
    (s s2 : Sys) (pid : String) (st : ConversionStatus)
    (hreach : Reachable s) (hstep : Step s s2)
    (hjob : s.reg pid = some st)
    (hterm : st.status = "success" ∨ st.status = "error") :
    s2.reg pid = some st ∧
      ∀ env env2 : DlEnv,
        (handle_download env { paper_id := some pid, check_status := some true }
            s2.reg s2.fs).results =
          (handle_download env2 { paper_id := some pid, check_status := some true }
            s.reg s.fs).results := by
  have hmain : s2.reg pid = some st := by
    cases hstep with
    | call env args =>
        simpa [applyDl] using
          handle_download_reg_preserve env args s.reg s.fs pid st hjob
    | runConv cenv pid0 sX hmem =>
        by_cases hpe : pid = pid0
        · subst hpe
          obtain ⟨_, hjobs⟩ := inv_reachable hreach
          obtain ⟨st2, hst2, hconv⟩ := hjobs pid hmem
          rw [hjob] at hst2
          injection hst2 with hst2
          subst hst2
          exfalso
          rcases hterm with h | h <;> rw [hconv] at h <;> exact absurd h (by decide)
        · rw [applyConv]
          dsimp only
          rw [convert_reg_frame cenv pid0 s.reg s.fs pid hpe]
          exact hjob
  refine ⟨hmain, ?_⟩
  intro env env2
  rw [handle_download_check_job env s2.reg s2.fs pid st hmain,
    handle_download_check_job env2 s.reg s.fs pid st hjob]

theorem terminal_job_frozen_witness :
    (applyDl wDlEnv { paper_id := some "p", check_status := some true }
        wSys2).reg "p" = some ⟨"p", "success", 0, some 7, none⟩ := by
  have hreach : Reachable wSys2 :=
    Reachable.step
      (Reachable.step (Reachable.init wEmptyFS) (Step.call wDlEnv wDlArgs wSys0))
      (Step.runConv wOkEnv "p" wSys1 (by decide))
  exact (terminal_job_frozen wSys2
    (applyDl wDlEnv { paper_id := some "p", check_status := some true } wSys2)
    "p" ⟨"p", "success", 0, some 7, none⟩ hreach
    (Step.call wDlEnv { paper_id := some "p", check_status := some true } wSys2)
    (by decide) (Or.inl rfl)).1

/-- C9: in any reachable state in which a Job for `pid` is in flight
(registered, artifact not yet on disk), a second full request for
`pid` returns the existing Job's current state, leaves the registry
and filesystem exactly as they were, spawns nothing — and the system
never holds more than one pending conversion for `pid`, so no
duplicate download or conversion is started.  (Each call is modelled
as one atomic step: inside the running process, `handle_download` has
no suspension point between its in-progress check and the Job
registration.) -/
theorem second_request_while_in_flight
    (s : Sys) (env : DlEnv) (pid : String) (st : ConversionStatus)
    (hreach : Reachable s)
    (hjob : s.reg pid = some st)
    (hart : s.fs (get_paper_path pid ".md") = none) :
    handle_download env { paper_id := some pid, check_status := some false }
        s.reg s.fs =
      { results := [⟨st.status, "Paper conversion " ++ st.status, none,
          some st.started_at, none, none⟩],
        reg := s.reg, fs := s.fs, spawned := none } ∧
    s.pending.count pid ≤ 1 := by
  refine ⟨handle_download_inflight env s.reg s.fs pid st hjob hart, ?_⟩
  exact List.nodup_iff_count_le_one.mp (inv_reachable hreach).1 pid

theorem second_request_while_in_flight_witness :
    (handle_download wDlEnv { paper_id := some "p", check_status := some false }
        wSys1.reg wSys1.fs =
      { results := [⟨"converting", "Paper conversion converting", none,
          some 0, none, none⟩],
        reg := wSys1.reg, fs := wSys1.fs, spawned := none }) ∧
    wSys1.pending.count "p" ≤ 1 := by
  have hreach : Reachable wSys1 :=
    Reachable.step (Reachable.init wEmptyFS) (Step.call wDlEnv wDlArgs wSys0)
  exact second_request_while_in_flight wSys1 wDlEnv "p"
    ⟨"p", "converting", 0, none, none⟩ hreach (by decide) (by decide)

end ArxivMcp
